import Mathlib

/-!
Shallow embedding of the room-scoped chat backend (`worker/src/index.ts`).

The durable store (Cloudflare D1 / SQLite) is modelled as an explicit state
value `DB` holding the three tables (`rooms`, `room_members`, `messages`) as
lists of rows, together with the autoincrement counters for the three primary
keys.  Each route handler of the worker's `fetch` function becomes a pure Lean
function from a parsed request body and the current state to a response
(`Except (Nat × String) α`, the pair being the HTTP status and the error
message of the JSON envelope) and the successor state.

External capabilities are injected as parameters, following the design notes
of the specification (clock and secure randomness are injectable):
* `sha256` is an arbitrary function `h : String → String`; theorems that need
  collision-freedom assume `Function.Injective h`.
* `randomToken` / `randomInvite` results are passed in as explicit `token` /
  `inviteCode` arguments of the handlers that call them.
* `nowIso()` timestamps are modelled as natural numbers (seconds); SQLite's
  `datetime(a) < datetime(b)` comparison on ISO strings becomes `<` on `Nat`.

JavaScript string primitives used by the worker (`trim`, `toUpperCase`,
`Number(...)` coercion of a decimal identifier) are embedded as structurally
recursive functions over the character list so that every handler evaluates
inside the kernel.
-/

deriving instance DecidableEq for Except

/-- Whitespace characters removed by JavaScript `String.prototype.trim`
(the forms that occur in chat input). -/
def isWs (c : Char) : Bool := c == ' ' || c == '\t' || c == '\n' || c == '\r'

/-- JavaScript `s.trim()`: drop leading and trailing whitespace. -/
def jsTrim (s : String) : String :=
  ⟨((s.data.dropWhile isWs).reverse.dropWhile isWs).reverse⟩

/-- JavaScript `s.toUpperCase()` (ASCII, as used for invite codes). -/
def jsToUpper (s : String) : String := ⟨s.data.map Char.toUpper⟩

/-- The worker's recurring parse idiom `body?.field?.trim() || ""`:
an absent field becomes the empty string, a present one is trimmed
(a trimmed-to-empty string is also falsy and becomes `""`, which is the
same string). -/
def trimOr (s : Option String) : String :=
  match s with
  | none => ""
  | some t => jsTrim t

/-- JavaScript `Number(identifier)` restricted to the decimal digit strings
that can actually match a row id; every other form (`NaN`, `0`, floats) is
mapped by the source's `|| -1` fallback to `-1`, which matches no id, so it
is modelled as `none`. -/
def decimalNat? (s : String) : Option Nat :=
  if s.data ≠ [] ∧ s.data.all (·.isDigit) then
    some (s.data.foldl (fun n c => n * 10 + (c.toNat - 48)) 0)
  else none

def MAX_NAME : Nat := 40
def MAX_ROOM : Nat := 60
def MAX_MSG : Nat := 500
def EXPIRE_DAYS : Nat := 7

/-- A row of the `rooms` table (`is_private` is stored as 0/1 in SQLite and
modelled as `Bool`; `password_hash` is the nullable TEXT column). -/
structure RoomRow where
  id : Nat
  name : String
  is_private : Bool
  password_hash : Option String
  invite_code : String
  owner_name : String
  created_at : Nat
  last_active_at : Nat
deriving DecidableEq, Repr

/-- A row of the `room_members` table. -/
structure MemberRow where
  id : Nat
  room_id : Nat
  member_name : String
  member_token : String
  joined_at : Nat
  last_seen_at : Nat
deriving DecidableEq, Repr

/-- A row of the `messages` table. -/
structure MsgRow where
  id : Nat
  room_id : Nat
  name : String
  message : String
  created_at : Nat
deriving DecidableEq, Repr

/-- The D1 database state: the three tables plus the autoincrement counters. -/
structure DB where
  rooms : List RoomRow
  members : List MemberRow
  messages : List MsgRow
  nextRoomId : Nat
  nextMemberId : Nat
  nextMsgId : Nat
deriving DecidableEq, Repr

def emptyDB : DB := ⟨[], [], [], 1, 1, 1⟩

/-- Predicate of `WHERE room_id = ? AND member_name = ?` (the upsert conflict target
`UNIQUE(room_id, member_name)`). -/
def memberKey (roomId : Nat) (memberName : String) (m : MemberRow) : Bool :=
  m.room_id == roomId && m.member_name == memberName

/-- Predicate of `WHERE room_id = ? AND member_name = ? AND member_token = ?`
(the exact three-column match of `assertMember`). -/
def memberCred (roomId : Nat) (memberName token : String) (m : MemberRow) : Bool :=
  m.room_id == roomId && m.member_name == memberName && m.member_token == token

/-- Whether some membership row matches all three of (room, name, token):
the ledger fact that `assertMember`'s SELECT tests. -/
def verifies (db : DB) (roomId : Nat) (memberName token : String) : Bool :=
  db.members.any (memberCred roomId memberName token)

/-- Source `ensureLobby`: `INSERT OR IGNORE` of the seeded public Lobby row; the
insert is ignored when either UNIQUE column (name `'Lobby'`, invite code
`'LOBBY000'`) is already present. -/
def ensureLobby (db : DB) (now : Nat) : DB :=
  if db.rooms.any (fun r => r.name == "Lobby" || r.invite_code == "LOBBY000") then db
  else
    { db with
      rooms := db.rooms ++
        [{ id := db.nextRoomId, name := "Lobby", is_private := false,
           password_hash := none, invite_code := "LOBBY000",
           owner_name := "system", created_at := now, last_active_at := now }],
      nextRoomId := db.nextRoomId + 1 }

/-- The SELECT of `cleanupExpired`:
`name != 'Lobby' AND datetime(last_active_at) < datetime('now','-7 day')`. -/
def roomExpired (now : Nat) (r : RoomRow) : Bool :=
  r.name != "Lobby" && r.last_active_at + EXPIRE_DAYS * 86400 < now

/-- Source `cleanupExpired`: for every expired room id, delete its messages, its
memberships and the room row itself (three DELETEs per id in the source;
their net effect on the state is the three filters below). -/
def cleanupExpired (db : DB) (now : Nat) : DB :=
  let ids := (db.rooms.filter (roomExpired now)).map (·.id)
  { db with
    messages := db.messages.filter (fun m => !ids.contains m.room_id),
    members := db.members.filter (fun m => !ids.contains m.room_id),
    rooms := db.rooms.filter (fun r => !ids.contains r.id) }

/-- Source `findRoom`: `WHERE name = ? OR invite_code = ? OR id = ? LIMIT 1`, bound
to the identifier, its upper-cased form, and `Number(identifier) || -1`. -/
def findRoom (db : DB) (identifier : String) : Option RoomRow :=
  let idNum : Option Nat :=
    match decimalNat? identifier with
    | some 0 => none
    | some n => some n
    | none => none
  db.rooms.find? (fun r =>
    r.name == identifier || r.invite_code == jsToUpper identifier ||
      idNum == some r.id)

/-- The query `SELECT ... FROM rooms WHERE id = ?` (used by both rotate handlers). -/
def roomById (db : DB) (roomId : Nat) : Option RoomRow :=
  db.rooms.find? (fun r => r.id == roomId)

/-- Source `joinMember`: upsert on `(room_id, member_name)` — update the token and
`last_seen_at` of the existing row, or insert a fresh row; returns the fresh
token (passed in for `randomToken()`). -/
def joinMember (db : DB) (roomId : Nat) (memberName token : String) (now : Nat) :
    String × DB :=
  if db.members.any (memberKey roomId memberName) then
    (token,
      { db with
        members := db.members.map (fun m =>
          if memberKey roomId memberName m then
            { m with member_token := token, last_seen_at := now }
          else m) })
  else
    (token,
      { db with
        members := db.members ++
          [{ id := db.nextMemberId, room_id := roomId, member_name := memberName,
             member_token := token, joined_at := now, last_seen_at := now }],
        nextMemberId := db.nextMemberId + 1 })

/-- Source `assertMember`: SELECT the row matching (room, name, token) exactly; on a
hit, refresh its `last_seen_at` and answer `true`, else answer `false` with
the state untouched. -/
def assertMember (db : DB) (roomId : Nat) (memberName token : String) (now : Nat) :
    Bool × DB :=
  match db.members.find? (memberCred roomId memberName token) with
  | none => (false, db)
  | some row =>
    (true,
      { db with
        members := db.members.map (fun m =>
          if m.id == row.id then { m with last_seen_at := now } else m) })

/-- The statement `UPDATE rooms SET last_active_at = ? WHERE id = ?`. -/
def touchRoom (db : DB) (roomId : Nat) (now : Nat) : DB :=
  { db with
    rooms := db.rooms.map (fun r =>
      if r.id == roomId then { r with last_active_at := now } else r) }

/-- A row of the `GET /api/rooms` listing (room joined with its member count). -/
structure RoomListEntry where
  room : RoomRow
  member_count : Nat
deriving DecidableEq, Repr

/-- Route `GET /api/rooms`: every room with its member count, ordered by
`last_active_at DESC`. -/
def listRooms (db : DB) : List RoomListEntry :=
  (db.rooms.mergeSort (fun a b => b.last_active_at ≤ a.last_active_at)).map
    (fun r => ⟨r, (db.members.filter (fun m => m.room_id == r.id)).length⟩)

/-- Parsed JSON body of `POST /api/rooms/create` (absent fields are `none`;
`isPrivate` is the result of the source's `Boolean(body?.isPrivate)`). -/
structure CreateBody where
  name : Option String
  ownerName : Option String
  isPrivate : Bool
  password : Option String
deriving DecidableEq, Repr

/-- Success payload of `POST /api/rooms/create`. -/
structure CreateResult where
  roomId : Nat
  roomName : String
  inviteCode : String
  ownerName : String
  memberToken : String
deriving DecidableEq, Repr

/-- Route `POST /api/rooms/create`.  `h` stands for `sha256`, `inviteCode` for the
`randomInvite()` draw and `token` for the `randomToken()` draw inside
`joinMember`.  The store-enforced UNIQUE constraints on `name` and
`invite_code` decide `inserted.success`. -/
def createRoom (h : String → String) (db : DB) (body : CreateBody)
    (inviteCode token : String) (now : Nat) :
    Except (Nat × String) CreateResult × DB :=
  let name := trimOr body.name
  let ownerName := trimOr body.ownerName
  let isPrivate := body.isPrivate
  let password := trimOr body.password
  if name == "" || ownerName == "" then
    (.error (400, "name and ownerName are required"), db)
  else if name.length > MAX_ROOM || ownerName.length > MAX_NAME then
    (.error (400, "name too long"), db)
  else if isPrivate && password.length < 4 then
    (.error (400, "password min 4 chars"), db)
  else
    let passHash := if isPrivate then some (h password) else none
    if db.rooms.any (fun r => r.name == name || r.invite_code == inviteCode) then
      (.error (400, "failed to create room (maybe name already used)"), db)
    else
      let roomId := db.nextRoomId
      let db1 : DB :=
        { db with
          rooms := db.rooms ++
            [{ id := roomId, name := name, is_private := isPrivate,
               password_hash := passHash, invite_code := inviteCode,
               owner_name := ownerName, created_at := now, last_active_at := now }],
          nextRoomId := db.nextRoomId + 1 }
      let res := joinMember db1 roomId ownerName token now
      (.ok ⟨roomId, name, inviteCode, ownerName, res.1⟩, res.2)

/-- Parsed JSON body of `POST /api/rooms/join`. -/
structure JoinBody where
  identifier : Option String
  password : Option String
  memberName : Option String
deriving DecidableEq, Repr

/-- Success payload of `POST /api/rooms/join`. -/
structure JoinResult where
  roomId : Nat
  roomName : String
  inviteCode : String
  ownerName : String
  isPrivate : Bool
  memberName : String
  memberToken : String
  isOwner : Bool
deriving DecidableEq, Repr

/-- Route `POST /api/rooms/join`: resolve the room, check the password hash when the
room is private (a missing stored hash always rejects), upsert the
membership, touch room activity. -/
def joinRoom (h : String → String) (db : DB) (body : JoinBody) (token : String)
    (now : Nat) : Except (Nat × String) JoinResult × DB :=
  let identifier := trimOr body.identifier
  let memberName := trimOr body.memberName
  let password := trimOr body.password
  if identifier == "" || memberName == "" then
    (.error (400, "identifier and memberName are required"), db)
  else if memberName.length > MAX_NAME then
    (.error (400, "memberName too long"), db)
  else
    match findRoom db identifier with
    | none => (.error (404, "room not found"), db)
    | some room =>
      if room.is_private &&
          !(match room.password_hash with
            | none => false
            | some ph => h password == ph) then
        (.error (401, "invalid room password"), db)
      else
        let res := joinMember db room.id memberName token now
        let db2 := touchRoom res.2 room.id now
        (.ok ⟨room.id, room.name, room.invite_code, room.owner_name,
              room.is_private, memberName, res.1,
              room.owner_name == memberName⟩,
          db2)

/-- Parsed JSON body of `POST /api/rooms/:id/regenerate-invite`. -/
structure RotateInviteBody where
  memberName : Option String
  memberToken : Option String
deriving DecidableEq, Repr

/-- Route `POST /api/rooms/:id/regenerate-invite`: owner-name check first (403),
then token verification (401), then overwrite the invite code and touch
activity.  `newInvite` stands for the `randomInvite()` draw. -/
def regenerateInvite (db : DB) (roomId : Nat) (body : RotateInviteBody)
    (newInvite : String) (now : Nat) : Except (Nat × String) String × DB :=
  let memberName := trimOr body.memberName
  let memberToken := trimOr body.memberToken
  match roomById db roomId with
  | none => (.error (404, "room not found"), db)
  | some room =>
    if room.owner_name != memberName then
      (.error (403, "only owner can do this"), db)
    else
      let res := assertMember db roomId memberName memberToken now
      if !res.1 then (.error (401, "invalid member token"), res.2)
      else
        (.ok newInvite,
          { res.2 with
            rooms := res.2.rooms.map (fun r =>
              if r.id == roomId then
                { r with invite_code := newInvite, last_active_at := now }
              else r) })

/-- Parsed JSON body of `POST /api/rooms/:id/regenerate-password`. -/
structure RotatePasswordBody where
  memberName : Option String
  memberToken : Option String
  newPassword : Option String
deriving DecidableEq, Repr

/-- Route `POST /api/rooms/:id/regenerate-password`: newPassword length check (400),
then owner-name check (403), then token verification (401), then set
`is_private = 1`, the new hash and the activity timestamp. -/
def regeneratePassword (h : String → String) (db : DB) (roomId : Nat)
    (body : RotatePasswordBody) (now : Nat) : Except (Nat × String) Unit × DB :=
  let memberName := trimOr body.memberName
  let memberToken := trimOr body.memberToken
  let newPassword := trimOr body.newPassword
  if newPassword.length < 4 then
    (.error (400, "new password min 4 chars"), db)
  else
    match roomById db roomId with
    | none => (.error (404, "room not found"), db)
    | some room =>
      if room.owner_name != memberName then
        (.error (403, "only owner can do this"), db)
      else
        let res := assertMember db roomId memberName memberToken now
        if !res.1 then (.error (401, "invalid member token"), res.2)
        else
          (.ok (),
            { res.2 with
              rooms := res.2.rooms.map (fun r =>
                if r.id == roomId then
                  { r with is_private := true,
                           password_hash := some (h newPassword),
                           last_active_at := now }
                else r) })

/-- The `ORDER BY id DESC` comparison of the messages query. -/
def msgDesc (a b : MsgRow) : Bool := b.id ≤ a.id

/-- Route `GET /api/messages?roomId=...`: newest-first from the store
(`ORDER BY id DESC LIMIT 100`), reversed at the boundary before returning
(`results.reverse()`).  `roomId = 0` covers the absent/unparseable parameter
(`Number(url.searchParams.get("roomId") || 0)` is falsy). -/
def getMessages (db : DB) (roomId : Nat) : Except (Nat × String) (List MsgRow) :=
  if roomId == 0 then .error (400, "roomId is required")
  else
    .ok ((((db.messages.filter (fun m => m.room_id == roomId)).mergeSort
      msgDesc).take 100).reverse)

/-- Parsed JSON body of `POST /api/messages` (`roomId` is already the result
of `Number(body?.roomId || 0)`). -/
structure PostBody where
  roomId : Nat
  name : Option String
  message : Option String
  memberToken : Option String
deriving DecidableEq, Repr

/-- Route `POST /api/messages`: validation, then membership verification (401
`join room first` on failure), then insert the message and touch the room's
activity timestamp with the same `createdAt`. -/
def postMessage (db : DB) (body : PostBody) (now : Nat) :
    Except (Nat × String) MsgRow × DB :=
  let roomId := body.roomId
  let name := trimOr body.name
  let message := trimOr body.message
  let memberToken := trimOr body.memberToken
  if roomId == 0 || name == "" || message == "" then
    (.error (400, "roomId, name, message are required"), db)
  else if name.length > MAX_NAME || message.length > MAX_MSG then
    (.error (400, "name/message too long"), db)
  else
    let res := assertMember db roomId name memberToken now
    if !res.1 then (.error (401, "join room first"), res.2)
    else
      let msg : MsgRow :=
        { id := res.2.nextMsgId, room_id := roomId, name := name,
          message := message, created_at := now }
      let db2 : DB :=
        { res.2 with
          messages := res.2.messages ++ [msg], nextMsgId := res.2.nextMsgId + 1 }
      (.ok msg, touchRoom db2 roomId now)

/-! ## Example states used by witnesses and counterexamples -/

/-- A state holding one public room `Team` (id 1, owner `alice`) whose owner
holds the membership token `tok123`. -/
def exDb : DB :=
  ⟨[⟨1, "Team", false, none, "TEAMCODE", "alice", 0, 0⟩],
   [⟨1, 1, "alice", "tok123", 0, 0⟩], [], 2, 2, 1⟩

/-- A state holding one private room `Secret` (id 1, owner `alice`, password
hash `id "abcd"`) and the owner's membership. -/
def exPrivDb : DB :=
  ⟨[⟨1, "Secret", true, some "abcd", "INVITE01", "alice", 0, 0⟩],
   [⟨1, 1, "alice", "tokA", 0, 0⟩], [], 2, 2, 1⟩

/-- A state with 3 messages in room 1 and one in room 2. -/
def exMsgDb : DB :=
  ⟨[⟨1, "Team", false, none, "TEAMCODE", "alice", 0, 0⟩],
   [⟨1, 1, "alice", "tok123", 0, 0⟩],
   [⟨1, 1, "alice", "m1", 0⟩, ⟨2, 1, "alice", "m2", 1⟩, ⟨3, 2, "bob", "x", 2⟩],
   3, 2, 4⟩

/-- A state holding the Lobby and a stale room `Old` (id 2, last active at
time 0) with one membership and one message. -/
def exExpDb : DB :=
  ⟨[⟨1, "Lobby", false, none, "LOBBY000", "system", 0, 0⟩,
    ⟨2, "Old", false, none, "OLDCODE1", "bob", 0, 0⟩],
   [⟨1, 2, "bob", "tokO", 0, 0⟩],
   [⟨1, 2, "bob", "hi", 0⟩], 3, 2, 2⟩

/-- The room-level privacy/hash correspondence of the data-model invariant:
a private room carries a password hash, a public one does not. -/
def roomWf (r : RoomRow) : Prop := r.password_hash.isSome = r.is_private

/-- The store-wide privacy/hash invariant (claim C9). -/
def DBInv (db : DB) : Prop := ∀ r ∈ db.rooms, roomWf r

/-! ## Basic facts about the membership primitives -/

theorem memberCred_eq (roomId : Nat) (n t : String) (m : MemberRow) :
    memberCred roomId n t m = (memberKey roomId n m && m.member_token == t) := rfl

theorem assertMember_fst (db : DB) (roomId : Nat) (n t : String) (now : Nat) :
    (assertMember db roomId n t now).1 = verifies db roomId n t := by
  unfold assertMember verifies
  cases hf : db.members.find? (memberCred roomId n t) with
  | none =>
    have hall := List.find?_eq_none.mp hf
    simp only []
    symm
    rw [List.any_eq_false]
    exact hall
  | some row =>
    simp only []
    symm
    rw [List.any_eq_true]
    exact ⟨row, List.mem_of_find?_eq_some hf, List.find?_some hf⟩

theorem assertMember_of_verifies_false (db : DB) (roomId : Nat) (n t : String)
    (now : Nat) (h : verifies db roomId n t = false) :
    assertMember db roomId n t now = (false, db) := by
  unfold assertMember
  have hf : db.members.find? (memberCred roomId n t) = none :=
    List.find?_eq_none.mpr (List.any_eq_false.mp h)
  rw [hf]

theorem assertMember_rooms (db : DB) (roomId : Nat) (n t : String) (now : Nat) :
    ((assertMember db roomId n t now).2).rooms = db.rooms := by
  unfold assertMember
  cases db.members.find? (memberCred roomId n t) <;> rfl

theorem assertMember_messages (db : DB) (roomId : Nat) (n t : String) (now : Nat) :
    ((assertMember db roomId n t now).2).messages = db.messages := by
  unfold assertMember
  cases db.members.find? (memberCred roomId n t) <;> rfl

theorem assertMember_nextMsgId (db : DB) (roomId : Nat) (n t : String) (now : Nat) :
    ((assertMember db roomId n t now).2).nextMsgId = db.nextMsgId := by
  unfold assertMember
  cases db.members.find? (memberCred roomId n t) <;> rfl

theorem joinMember_fst (db : DB) (roomId : Nat) (n t : String) (now : Nat) :
    (joinMember db roomId n t now).1 = t := by
  unfold joinMember
  split <;> rfl

theorem joinMember_rooms (db : DB) (roomId : Nat) (n t : String) (now : Nat) :
    ((joinMember db roomId n t now).2).rooms = db.rooms := by
  unfold joinMember
  split <;> rfl

theorem joinMember_messages (db : DB) (roomId : Nat) (n t : String) (now : Nat) :
    ((joinMember db roomId n t now).2).messages = db.messages := by
  unfold joinMember
  split <;> rfl

/-- After the upsert, every row keyed by `(roomId, n)` carries the fresh
token. -/
theorem joinMember_token_eq (db : DB) (roomId : Nat) (n t : String) (now : Nat) :
    ∀ m ∈ ((joinMember db roomId n t now).2).members,
      memberKey roomId n m = true → m.member_token = t := by
  intro m hm hk
  unfold joinMember at hm
  by_cases h : db.members.any (memberKey roomId n)
  · rw [if_pos h] at hm
    simp only [List.mem_map] at hm
    rcases hm with ⟨m0, _, heq⟩
    by_cases hk0 : memberKey roomId n m0 = true
    · rw [if_pos hk0] at heq
      rw [← heq]
    · rw [if_neg hk0] at heq
      rw [← heq] at hk
      exact absurd hk hk0
  · rw [if_neg h] at hm
    simp only [List.mem_append, List.mem_singleton] at hm
    rcases hm with hm | hm
    · have := List.any_eq_false.mp (Bool.eq_false_iff.mpr h) m hm
      exact absurd hk this
    · rw [hm]

/-- After the upsert, some row keyed by `(roomId, n)` exists and carries the
fresh token. -/
theorem joinMember_exists (db : DB) (roomId : Nat) (n t : String) (now : Nat) :
    ∃ m ∈ ((joinMember db roomId n t now).2).members,
      memberKey roomId n m = true ∧ m.member_token = t := by
  unfold joinMember
  by_cases h : db.members.any (memberKey roomId n)
  · rw [if_pos h]
    rcases List.any_eq_true.mp h with ⟨m0, hm0, hk0⟩
    refine ⟨{ m0 with member_token := t, last_seen_at := now }, ?_, ?_, rfl⟩
    · simp only [List.mem_map]
      exact ⟨m0, hm0, by rw [if_pos hk0]⟩
    · unfold memberKey at hk0 ⊢
      exact hk0
  · rw [if_neg h]
    refine ⟨_, List.mem_append_right _ (List.mem_singleton_self _), ?_, rfl⟩
    unfold memberKey
    simp

/-- The freshly issued token verifies. -/
theorem verifies_joinMember_self (db : DB) (roomId : Nat) (n t : String) (now : Nat) :
    verifies ((joinMember db roomId n t now).2) roomId n t = true := by
  rcases joinMember_exists db roomId n t now with ⟨m, hm, hk, ht⟩
  rw [verifies, List.any_eq_true]
  refine ⟨m, hm, ?_⟩
  rw [memberCred_eq, hk, Bool.true_and, ht]
  exact beq_self_eq_true t

/-- No token other than the freshly issued one verifies for `(roomId, n)`. -/
theorem verifies_joinMember_ne (db : DB) (roomId : Nat) (n t t' : String)
    (now : Nat) (hne : t' ≠ t) :
    verifies ((joinMember db roomId n t now).2) roomId n t' = false := by
  rw [verifies, List.any_eq_false]
  intro m hm hc
  rw [memberCred_eq, Bool.and_eq_true] at hc
  have ht := joinMember_token_eq db roomId n t now m hm hc.1
  rw [ht] at hc
  exact hne (beq_iff_eq.mp hc.2).symm

/-! ## C3 — re-join invalidates the previous token -/

/-- Claim C3: joining the same room under the same member name twice yields
the two freshly drawn tokens (distinct by the secure-randomness contract of
`generateToken`, taken as the hypothesis `t1 ≠ t2`), and afterwards only the
most recently issued token verifies against the membership ledger: the second
token verifies, the first fails verification. -/
theorem C3_rejoin_invalidates (db : DB) (roomId : Nat) (n t1 t2 : String)
    (now1 now2 now3 now4 : Nat) (hne : t1 ≠ t2) :
    (joinMember db roomId n t1 now1).1 = t1 ∧
    (joinMember ((joinMember db roomId n t1 now1).2) roomId n t2 now2).1 = t2 ∧
    (assertMember
      ((joinMember ((joinMember db roomId n t1 now1).2) roomId n t2 now2).2)
      roomId n t2 now3).1 = true ∧
    (assertMember
      ((joinMember ((joinMember db roomId n t1 now1).2) roomId n t2 now2).2)
      roomId n t1 now4).1 = false := by
  refine ⟨joinMember_fst .., joinMember_fst .., ?_, ?_⟩
  · rw [assertMember_fst]
    exact verifies_joinMember_self ..
  · rw [assertMember_fst]
    exact verifies_joinMember_ne _ _ _ _ _ _ hne

/-- Concrete instance of C3: two joins of `alice` on room 1 with distinct
fresh tokens. -/
theorem C3_rejoin_invalidates_witness :
    "tokX" ≠ "tokY" ∧
    ((joinMember exDb 1 "alice" "tokX" 10).1 = "tokX" ∧
     (joinMember ((joinMember exDb 1 "alice" "tokX" 10).2) 1 "alice" "tokY" 11).1 = "tokY" ∧
     (assertMember
       ((joinMember ((joinMember exDb 1 "alice" "tokX" 10).2) 1 "alice" "tokY" 11).2)
       1 "alice" "tokY" 12).1 = true ∧
     (assertMember
       ((joinMember ((joinMember exDb 1 "alice" "tokX" 10).2) 1 "alice" "tokY" 11).2)
       1 "alice" "tokX" 13).1 = false) :=
  ⟨by decide, C3_rejoin_invalidates exDb 1 "alice" "tokX" "tokY" 10 11 12 13 (by decide)⟩

/-! ## C1 — rotate operations: forbidden before unauthorized -/

/-- Claim C1, counterexample to the claim as stated.  Room 1 of `exDb` is
owned by `"alice"`.  (i) A rotate-invite request supplying the member name
`"alice "` — not equal to the stored owner name — does not fail with the
forbidden signal: the handler trims the supplied name before the comparison,
so with a valid token the rotation succeeds.  (ii) A rotate-password request
supplying the member name `"bob"` (also not the owner) together with a
too-short new password fails with the 400 validation signal, not the 403
forbidden signal: the length check runs before the identity check. -/
theorem C1_counterexample :
    (roomById exDb 1).map (·.owner_name) = some "alice" ∧
    ("alice " ≠ "alice") ∧
    (regenerateInvite exDb 1 ⟨some "alice ", some "tok123"⟩ "NEWCODE1" 99).1 =
      .ok "NEWCODE1" ∧
    ("bob" ≠ "alice") ∧
    (regeneratePassword id exDb 1 ⟨some "bob", some "tok123", some "x"⟩ 99).1 =
      .error (400, "new password min 4 chars") := by decide

/-- Claim C1 (amended): for rotate-invite, and for rotate-password requests
whose new password passes the length validation, a trimmed supplied member
name different from the stored owner name fails with the 403 forbidden signal
and leaves the store untouched no matter what token is supplied (so the
identity check precedes the token check); a trimmed member name equal to the
owner whose (roomId, name, token) triple is not in the membership ledger
fails with the distinct 401 unauthorized signal. -/
theorem C1_owner_check_precedes_token_check
    (h : String → String) (db : DB) (roomId : Nat) (room : RoomRow)
    (bi : RotateInviteBody) (bp : RotatePasswordBody)
    (newInvite : String) (now : Nat)
    (hroom : roomById db roomId = some room) :
    (trimOr bi.memberName ≠ room.owner_name →
      regenerateInvite db roomId bi newInvite now =
        (.error (403, "only owner can do this"), db)) ∧
    (4 ≤ (trimOr bp.newPassword).length →
      trimOr bp.memberName ≠ room.owner_name →
      regeneratePassword h db roomId bp now =
        (.error (403, "only owner can do this"), db)) ∧
    (trimOr bi.memberName = room.owner_name →
      verifies db roomId (trimOr bi.memberName) (trimOr bi.memberToken) = false →
      regenerateInvite db roomId bi newInvite now =
        (.error (401, "invalid member token"), db)) ∧
    (4 ≤ (trimOr bp.newPassword).length →
      trimOr bp.memberName = room.owner_name →
      verifies db roomId (trimOr bp.memberName) (trimOr bp.memberToken) = false →
      regeneratePassword h db roomId bp now =
        (.error (401, "invalid member token"), db)) := by
  refine ⟨?_, ?_, ?_, ?_⟩
  · intro hname
    simp only [regenerateInvite, hroom]
    rw [if_pos (bne_iff_ne.mpr (Ne.symm hname))]
  · intro hlen hname
    simp only [regeneratePassword, hroom]
    rw [if_neg (by omega : ¬ (trimOr bp.newPassword).length < 4),
      if_pos (bne_iff_ne.mpr (Ne.symm hname))]
  · intro hname hver
    simp only [regenerateInvite, hroom]
    rw [if_neg (by simp [bne_iff_ne, hname] : ¬ (room.owner_name != trimOr bi.memberName) = true),
      assertMember_of_verifies_false db roomId _ _ now hver]
    rfl
  · intro hlen hname hver
    simp only [regeneratePassword, hroom]
    rw [if_neg (by omega : ¬ (trimOr bp.newPassword).length < 4),
      if_neg (by simp [bne_iff_ne, hname] : ¬ (room.owner_name != trimOr bp.memberName) = true),
      assertMember_of_verifies_false db roomId _ _ now hver]
    rfl

/-- Concrete instance of C1 (amended): on room 1 of `exDb` (owner `alice`),
the non-owner rotate-invite request by `bob` is forbidden even though the
supplied token is the owner's valid one, while an owner-named
rotate-password request with an unknown token is unauthorized. -/
theorem C1_owner_check_precedes_token_check_witness :
    roomById exDb 1 = some ⟨1, "Team", false, none, "TEAMCODE", "alice", 0, 0⟩ ∧
    ((trimOr (some "bob") ≠ "alice" →
      regenerateInvite exDb 1 ⟨some "bob", some "tok123"⟩ "NEWCODE2" 50 =
        (.error (403, "only owner can do this"), exDb)) ∧
     (4 ≤ (trimOr (some "abcd")).length →
      trimOr (some "alice") ≠ "alice" →
      regeneratePassword id exDb 1 ⟨some "alice", some "wrong", some "abcd"⟩ 50 =
        (.error (403, "only owner can do this"), exDb)) ∧
     (trimOr (some "bob") = "alice" →
      verifies exDb 1 (trimOr (some "bob")) (trimOr (some "tok123")) = false →
      regenerateInvite exDb 1 ⟨some "bob", some "tok123"⟩ "NEWCODE2" 50 =
        (.error (401, "invalid member token"), exDb)) ∧
     (4 ≤ (trimOr (some "abcd")).length →
      trimOr (some "alice") = "alice" →
      verifies exDb 1 (trimOr (some "alice")) (trimOr (some "wrong")) = false →
      regeneratePassword id exDb 1 ⟨some "alice", some "wrong", some "abcd"⟩ 50 =
        (.error (401, "invalid member token"), exDb))) :=
  ⟨by decide,
   C1_owner_check_precedes_token_check id exDb 1
     ⟨1, "Team", false, none, "TEAMCODE", "alice", 0, 0⟩
     ⟨some "bob", some "tok123"⟩ ⟨some "alice", some "wrong", some "abcd"⟩
     "NEWCODE2" 50 (by decide)⟩

/-! ## C2 — private-room password gate on join -/

/-- Claim C2, counterexample to the claim as stated.  A private room is
created with password `P = "abcd"`; a join request supplying the password
`" abcd"` — a string different from `P` — is nevertheless accepted, because
both the create and the join handler trim the supplied password before
hashing.  (`id` stands for the injected hash function; the acceptance does
not depend on it, as the trim happens before hashing.) -/
theorem C2_counterexample :
    (" abcd" ≠ "abcd") ∧
    (createRoom id emptyDB ⟨some "Secret", some "alice", true, some "abcd"⟩
        "INVITE01" "tokA" 0).1 =
      .ok ⟨1, "Secret", "INVITE01", "alice", "tokA"⟩ ∧
    (joinRoom id
        (createRoom id emptyDB ⟨some "Secret", some "alice", true, some "abcd"⟩
          "INVITE01" "tokA" 0).2
        ⟨some "Secret", some " abcd", some "bob"⟩ "tokB" 1).1 =
      .ok ⟨1, "Secret", "INVITE01", "alice", true, "bob", "tokB", false⟩ := by
  decide

/-- Claim C2 (amended): for a well-formed join request resolving to a private
room whose stored hash is that of password `P` (`P` being the trimmed
creation password), the join is accepted exactly when the supplied password's
trimmed form equals `P` and rejected with the 401 invalid-password signal for
every other supplied password (including the empty string); if the private
room's stored hash is absent, every join attempt is rejected.  Assumes the
hash `h` is collision-free (injective). -/
theorem C2_private_join_password_gate
    (h : String → String) (hinj : Function.Injective h) (db : DB)
    (body : JoinBody) (token : String) (now : Nat) (room : RoomRow) (P : String)
    (hid : trimOr body.identifier ≠ "")
    (hname : trimOr body.memberName ≠ "")
    (hlen : (trimOr body.memberName).length ≤ MAX_NAME)
    (hfind : findRoom db (trimOr body.identifier) = some room)
    (hpriv : room.is_private = true) :
    (room.password_hash = some (h P) → trimOr body.password = P →
      (joinRoom h db body token now).1 =
        .ok ⟨room.id, room.name, room.invite_code, room.owner_name,
             room.is_private, trimOr body.memberName, token,
             room.owner_name == trimOr body.memberName⟩) ∧
    (room.password_hash = some (h P) → trimOr body.password ≠ P →
      joinRoom h db body token now = (.error (401, "invalid room password"), db)) ∧
    (room.password_hash = none →
      joinRoom h db body token now = (.error (401, "invalid room password"), db)) := by
  have hval1 : ¬ ((trimOr body.identifier == "") || (trimOr body.memberName == "")) = true := by
    simp [hid, hname]
  have hval2 : ¬ ((trimOr body.memberName).length > MAX_NAME) := Nat.not_lt.mpr hlen
  refine ⟨?_, ?_, ?_⟩
  · intro hph hpw
    simp only [joinRoom, hfind]
    rw [if_neg hval1, if_neg hval2, hph, hpw, if_neg (by simp)]
    simp [joinMember_fst]
  · intro hph hpw
    simp only [joinRoom, hfind]
    rw [if_neg hval1, if_neg hval2, hph,
      if_pos (by
        rw [hpriv, Bool.true_and, Bool.not_eq_true']
        exact beq_eq_false_iff_ne.mpr (fun e => hpw (hinj e)))]
  · intro hph
    simp only [joinRoom, hfind]
    rw [if_neg hval1, if_neg hval2, hph, if_pos (by rw [hpriv]; rfl)]

/-- Concrete instance of C2 (amended): joining the private room `Secret`
(stored hash of `P = "abcd"`) with the exact password `"abcd"` succeeds. -/
theorem C2_private_join_password_gate_witness :
    Function.Injective (id : String → String) ∧
    trimOr (some "Secret") ≠ "" ∧
    trimOr (some "bob") ≠ "" ∧
    (trimOr (some "bob")).length ≤ MAX_NAME ∧
    findRoom exPrivDb (trimOr (some "Secret")) =
      some ⟨1, "Secret", true, some "abcd", "INVITE01", "alice", 0, 0⟩ ∧
    ((⟨1, "Secret", true, some "abcd", "INVITE01", "alice", 0, 0⟩ : RoomRow).is_private = true) ∧
    ((some "abcd" = some (id "abcd") → trimOr (some "abcd") = "abcd" →
      (joinRoom id exPrivDb ⟨some "Secret", some "abcd", some "bob"⟩ "tokB" 5).1 =
        .ok ⟨1, "Secret", "INVITE01", "alice", true, trimOr (some "bob"), "tokB",
             ("alice" == trimOr (some "bob"))⟩) ∧
     (some "abcd" = some (id "abcd") → trimOr (some "abcd") ≠ "abcd" →
      joinRoom id exPrivDb ⟨some "Secret", some "abcd", some "bob"⟩ "tokB" 5 =
        (.error (401, "invalid room password"), exPrivDb)) ∧
     ((some "abcd" : Option String) = none →
      joinRoom id exPrivDb ⟨some "Secret", some "abcd", some "bob"⟩ "tokB" 5 =
        (.error (401, "invalid room password"), exPrivDb))) :=
  ⟨Function.injective_id, by decide, by decide, by decide, by decide, by decide,
   C2_private_join_password_gate id Function.injective_id exPrivDb
     ⟨some "Secret", some "abcd", some "bob"⟩ "tokB" 5
     ⟨1, "Secret", true, some "abcd", "INVITE01", "alice", 0, 0⟩ "abcd"
     (by decide) (by decide) (by decide) (by decide) (by decide)⟩

/-! ## C4 — successful create: unique invite, creator enrolled -/

/-- Claim C4: whenever a create-room request succeeds (which in particular
requires the store-enforced uniqueness check to pass), the invite code of the
result is held by no pre-existing room, and the creator is immediately a
verified member of the created room: the returned member token verifies
against the membership ledger for (roomId, ownerName) at any later time. -/
theorem C4_create_unique_invite_and_member
    (h : String → String) (db : DB) (body : CreateBody)
    (inviteCode token : String) (now : Nat) (res : CreateResult)
    (hok : (createRoom h db body inviteCode token now).1 = .ok res) :
    res.inviteCode = inviteCode ∧
    res.memberToken = token ∧
    (∀ r ∈ db.rooms, r.invite_code ≠ inviteCode) ∧
    (∀ now2, (assertMember ((createRoom h db body inviteCode token now).2)
      res.roomId res.ownerName res.memberToken now2).1 = true) := by
  simp only [createRoom] at hok ⊢
  split at hok
  · simp at hok
  rename_i hc1
  split at hok
  · simp at hok
  rename_i hc2
  split at hok
  · simp at hok
  rename_i hc3
  split at hok
  · simp at hok
  rename_i hc4
  rw [joinMember_fst] at hok
  have hres : CreateResult.mk db.nextRoomId (trimOr body.name) inviteCode
      (trimOr body.ownerName) token = res := by
    simpa using hok
  subst hres
  rw [if_neg hc1, if_neg hc2, if_neg hc3, if_neg hc4]
  refine ⟨rfl, rfl, ?_, ?_⟩
  · intro r hr hcontra
    apply hc4
    rw [List.any_eq_true]
    refine ⟨r, hr, ?_⟩
    rw [hcontra]
    simp
  · intro now2
    rw [assertMember_fst]
    exact verifies_joinMember_self ..

/-- Concrete instance of C4: creating `Team` in the empty store succeeds and
the returned token verifies for the creator. -/
theorem C4_create_unique_invite_and_member_witness :
    (createRoom id emptyDB ⟨some "Team", some "alice", false, none⟩
        "INVITE99" "tokZ" 0).1 =
      .ok ⟨1, "Team", "INVITE99", "alice", "tokZ"⟩ ∧
    ((⟨1, "Team", "INVITE99", "alice", "tokZ"⟩ : CreateResult).inviteCode = "INVITE99" ∧
     (⟨1, "Team", "INVITE99", "alice", "tokZ"⟩ : CreateResult).memberToken = "tokZ" ∧
     (∀ r ∈ emptyDB.rooms, r.invite_code ≠ "INVITE99") ∧
     (∀ now2, (assertMember
        ((createRoom id emptyDB ⟨some "Team", some "alice", false, none⟩
          "INVITE99" "tokZ" 0).2)
        (⟨1, "Team", "INVITE99", "alice", "tokZ"⟩ : CreateResult).roomId
        (⟨1, "Team", "INVITE99", "alice", "tokZ"⟩ : CreateResult).ownerName
        (⟨1, "Team", "INVITE99", "alice", "tokZ"⟩ : CreateResult).memberToken
        now2).1 = true)) :=
  ⟨by decide,
   C4_create_unique_invite_and_member id emptyDB
     ⟨some "Team", some "alice", false, none⟩ "INVITE99" "tokZ" 0
     ⟨1, "Team", "INVITE99", "alice", "tokZ"⟩ (by decide)⟩

/-! ## C5 — request-cycle expiration cleanup -/

/-- Claim C5: after the expiration cleanup that the worker runs at the start
of every request cycle, every non-Lobby room whose last-activity timestamp is
older than 7 days (`roomExpired`) is removed together with all of its
memberships and messages, and is absent from subsequent list and find
results; rooms that are not expired — in particular the Lobby, which the
cleanup query excludes by name — are never removed.  The hypothesis `hids` is
the store's primary-key uniqueness of room ids. -/
theorem C5_expiration_cleanup (db : DB) (now : Nat)
    (hids : (db.rooms.map (fun r => r.id)).Nodup) :
    (∀ r ∈ db.rooms, roomExpired now r = true →
      r ∉ (cleanupExpired db now).rooms ∧
      (∀ m ∈ (cleanupExpired db now).members, m.room_id ≠ r.id) ∧
      (∀ m ∈ (cleanupExpired db now).messages, m.room_id ≠ r.id) ∧
      (∀ e ∈ listRooms (cleanupExpired db now), e.room ≠ r) ∧
      (∀ ident, findRoom (cleanupExpired db now) ident ≠ some r)) ∧
    (∀ r ∈ db.rooms, r.name = "Lobby" → r ∈ (cleanupExpired db now).rooms) ∧
    (∀ r ∈ db.rooms, roomExpired now r = false → r ∈ (cleanupExpired db now).rooms) := by
  have hmemids : ∀ r ∈ db.rooms, roomExpired now r = true →
      r.id ∈ (db.rooms.filter (roomExpired now)).map (fun r => r.id) := by
    intro r hr hexp
    exact List.mem_map.mpr ⟨r, List.mem_filter.mpr ⟨hr, hexp⟩, rfl⟩
  have hnotids : ∀ r ∈ db.rooms, roomExpired now r = false →
      r.id ∉ (db.rooms.filter (roomExpired now)).map (fun r => r.id) := by
    intro r hr hexp hmem
    rcases List.mem_map.mp hmem with ⟨r', hr', hid⟩
    have hr'rooms := (List.mem_filter.mp hr').1
    have hr'exp := (List.mem_filter.mp hr').2
    have : r' = r := List.inj_on_of_nodup_map hids hr'rooms hr hid
    rw [this, hexp] at hr'exp
    exact Bool.false_ne_true hr'exp
  have hkeep : ∀ r ∈ db.rooms, roomExpired now r = false →
      r ∈ (cleanupExpired db now).rooms := by
    intro r hr hexp
    simp only [cleanupExpired]
    refine List.mem_filter.mpr ⟨hr, ?_⟩
    simp only [Bool.not_eq_true', ← Bool.not_eq_true]
    simp only [List.elem_iff]
    exact hnotids r hr hexp
  have hgone : ∀ r ∈ db.rooms, roomExpired now r = true →
      r ∉ (cleanupExpired db now).rooms := by
    intro r hr hexp hmem
    simp only [cleanupExpired] at hmem
    have hcont := (List.mem_filter.mp hmem).2
    simp only [Bool.not_eq_true', ← Bool.not_eq_true, List.elem_iff] at hcont
    exact hcont (hmemids r hr hexp)
  refine ⟨?_, ?_, hkeep⟩
  · intro r hr hexp
    refine ⟨hgone r hr hexp, ?_, ?_, ?_, ?_⟩
    · intro m hm heq
      simp only [cleanupExpired] at hm
      have hcont := (List.mem_filter.mp hm).2
      simp only [Bool.not_eq_true', ← Bool.not_eq_true, List.elem_iff] at hcont
      rw [heq] at hcont
      exact hcont (hmemids r hr hexp)
    · intro m hm heq
      simp only [cleanupExpired] at hm
      have hcont := (List.mem_filter.mp hm).2
      simp only [Bool.not_eq_true', ← Bool.not_eq_true, List.elem_iff] at hcont
      rw [heq] at hcont
      exact hcont (hmemids r hr hexp)
    · intro e he heq
      simp only [listRooms] at he
      rcases List.mem_map.mp he with ⟨r', hr', hre⟩
      have hmem : r' ∈ (cleanupExpired db now).rooms :=
        (List.mergeSort_perm _ _).mem_iff.mp hr'
      apply hgone r hr hexp
      rw [← heq, ← hre]
      exact hmem
    · intro ident hfind
      exact hgone r hr hexp (List.mem_of_find?_eq_some hfind)
  · intro r hr hlobby
    refine hkeep r hr ?_
    unfold roomExpired
    rw [hlobby]
    simp

/-- Concrete instance of C5: at time 864000 (day 10) the stale room `Old`
of `exExpDb` is removed with its membership and message while the Lobby
survives. -/
theorem C5_expiration_cleanup_witness :
    (exExpDb.rooms.map (fun r => r.id)).Nodup ∧
    ((∀ r ∈ exExpDb.rooms, roomExpired 864000 r = true →
      r ∉ (cleanupExpired exExpDb 864000).rooms ∧
      (∀ m ∈ (cleanupExpired exExpDb 864000).members, m.room_id ≠ r.id) ∧
      (∀ m ∈ (cleanupExpired exExpDb 864000).messages, m.room_id ≠ r.id) ∧
      (∀ e ∈ listRooms (cleanupExpired exExpDb 864000), e.room ≠ r) ∧
      (∀ ident, findRoom (cleanupExpired exExpDb 864000) ident ≠ some r)) ∧
     (∀ r ∈ exExpDb.rooms, r.name = "Lobby" →
        r ∈ (cleanupExpired exExpDb 864000).rooms) ∧
     (∀ r ∈ exExpDb.rooms, roomExpired 864000 r = false →
        r ∈ (cleanupExpired exExpDb 864000).rooms)) :=
  ⟨by decide, C5_expiration_cleanup exExpDb 864000 (by decide)⟩

/-! ## C6 — create-room name conflict -/

/-- Claim C6, counterexample to the claim as stated.  The store-level
uniqueness violation (room name `Team` already taken in `exDb`) is reported
with HTTP status 400 — the same status class the handler uses for the
ValidationError responses (the spec's taxonomy assigns conflicts a
409-equivalent class, distinct from 400) — so at the status level the
conflict signal is not a distinct error kind; only the message text
differs. -/
theorem C6_counterexample :
    (createRoom id exDb ⟨some "Team", some "bob", false, none⟩ "INVITE77" "tokC" 5).1 =
      .error (400, "failed to create room (maybe name already used)") ∧
    (createRoom id exDb ⟨none, some "bob", false, none⟩ "INVITE78" "tokC" 5).1 =
      .error (400, "name and ownerName are required") := by decide

/-- Claim C6 (amended): create-room fails with the dedicated conflict
response — status 400 and the message
`failed to create room (maybe name already used)` — when the requested name
is already taken and the input is otherwise valid, without touching the
store; this response is distinguishable from every validation response only
by its message text, as it shares the 400 status with them. -/
theorem C6_conflict_on_name_taken
    (h : String → String) (db : DB) (body : CreateBody)
    (inviteCode token : String) (now : Nat)
    (hname : trimOr body.name ≠ "")
    (howner : trimOr body.ownerName ≠ "")
    (hlen1 : (trimOr body.name).length ≤ MAX_ROOM)
    (hlen2 : (trimOr body.ownerName).length ≤ MAX_NAME)
    (hpw : body.isPrivate = true → 4 ≤ (trimOr body.password).length)
    (htaken : ∃ r ∈ db.rooms, r.name = trimOr body.name) :
    createRoom h db body inviteCode token now =
      (.error (400, "failed to create room (maybe name already used)"), db) ∧
    "failed to create room (maybe name already used)" ≠ "name and ownerName are required" ∧
    "failed to create room (maybe name already used)" ≠ "name too long" ∧
    "failed to create room (maybe name already used)" ≠ "password min 4 chars" := by
  refine ⟨?_, by decide, by decide, by decide⟩
  simp only [createRoom]
  rw [if_neg (by simp [hname, howner]),
    if_neg (by
      simp only [Bool.or_eq_true, decide_eq_true_eq, not_or, Nat.not_lt]
      exact ⟨hlen1, hlen2⟩),
    if_neg (by
      cases hp : body.isPrivate with
      | false => simp
      | true =>
        have := hpw hp
        simp only [Bool.true_and, decide_eq_true_eq, Nat.not_lt]
        omega),
    if_pos (by
      rcases htaken with ⟨r, hr, hnm⟩
      rw [List.any_eq_true]
      exact ⟨r, hr, by rw [hnm]; simp⟩)]

/-- Concrete instance of C6 (amended): creating a second room named `Team`
in `exDb` yields the conflict response and leaves the store unchanged. -/
theorem C6_conflict_on_name_taken_witness :
    trimOr (some "Team") ≠ "" ∧
    trimOr (some "bob") ≠ "" ∧
    (trimOr (some "Team")).length ≤ MAX_ROOM ∧
    (trimOr (some "bob")).length ≤ MAX_NAME ∧
    ((false : Bool) = true → 4 ≤ (trimOr (none : Option String)).length) ∧
    (∃ r ∈ exDb.rooms, r.name = trimOr (some "Team")) ∧
    (createRoom id exDb ⟨some "Team", some "bob", false, none⟩ "INVITE77" "tokC" 5 =
       (.error (400, "failed to create room (maybe name already used)"), exDb) ∧
     "failed to create room (maybe name already used)" ≠ "name and ownerName are required" ∧
     "failed to create room (maybe name already used)" ≠ "name too long" ∧
     "failed to create room (maybe name already used)" ≠ "password min 4 chars") :=
  ⟨by decide, by decide, by decide, by decide, by decide, by decide,
   C6_conflict_on_name_taken id exDb ⟨some "Team", some "bob", false, none⟩
     "INVITE77" "tokC" 5 (by decide) (by decide) (by decide) (by decide)
     (by decide) (by decide)⟩

/-! ## C7 — bounded, ascending message retrieval -/

/-- Claim C7: message retrieval returns the room's stored messages in
ascending creation order (message ids are assigned in creation order by the
autoincrement counter), capped at 100; the returned list is a permutation
complement of a remainder whose every element is no newer than every
returned element — i.e. when more than 100 messages exist the 100 most
recent are returned, produced by reversing the store's newest-first order at
the boundary. -/
theorem C7_messages_ascending_capped (db : DB) (roomId : Nat) (hr : roomId ≠ 0) :
    ∃ l, getMessages db roomId = .ok l ∧
      l.length = min 100 ((db.messages.filter (fun m => m.room_id == roomId)).length) ∧
      l.Pairwise (fun a b => a.id ≤ b.id) ∧
      (∀ m ∈ l, m ∈ db.messages ∧ m.room_id = roomId) ∧
      ∃ rest, (l ++ rest).Perm (db.messages.filter (fun m => m.room_id == roomId)) ∧
        ∀ x ∈ rest, ∀ y ∈ l, x.id ≤ y.id := by
  have hne0 : (roomId == 0) = false := beq_eq_false_iff_ne.mpr hr
  have hgm : getMessages db roomId =
      .ok ((((db.messages.filter (fun m => m.room_id == roomId)).mergeSort
        msgDesc).take 100).reverse) := by
    simp only [getMessages, hne0, Bool.false_eq_true, if_false]
  set flt := db.messages.filter (fun m => m.room_id == roomId) with hflt
  set s := flt.mergeSort msgDesc with hs
  have hperm : s.Perm flt := List.mergeSort_perm flt msgDesc
  have hsorted : s.Pairwise (fun a b => msgDesc a b = true) :=
    List.sorted_mergeSort
      (by intro a b c hab hbc; simp only [msgDesc, decide_eq_true_eq] at *; omega)
      (by intro a b; simp only [msgDesc, Bool.or_eq_true, decide_eq_true_eq]; omega)
      flt
  refine ⟨_, hgm, ?_, ?_, ?_, s.drop 100, ?_, ?_⟩
  · rw [List.length_reverse, List.length_take, hperm.length_eq]
  · rw [List.pairwise_reverse]
    exact ((hsorted.sublist (List.take_sublist 100 s)).imp
      (by intro a b hab; simpa [msgDesc] using hab))
  · intro m hm
    rw [List.mem_reverse] at hm
    have hmem : m ∈ flt := hperm.mem_iff.mp ((List.take_sublist 100 s).subset hm)
    have := List.mem_filter.mp hmem
    exact ⟨this.1, beq_iff_eq.mp this.2⟩
  · refine ((List.reverse_perm (s.take 100)).append_right (s.drop 100)).trans ?_
    rw [List.take_append_drop]
    exact hperm
  · intro x hx y hy
    rw [List.mem_reverse] at hy
    rw [← List.take_append_drop 100 s] at hsorted
    have hcross := (List.pairwise_append.mp hsorted).2.2 y hy x hx
    simpa [msgDesc] using hcross

/-- Concrete instance of C7: retrieval for room 1 of `exMsgDb`. -/
theorem C7_messages_ascending_capped_witness :
    (1 : Nat) ≠ 0 ∧
    (∃ l, getMessages exMsgDb 1 = .ok l ∧
      l.length = min 100 ((exMsgDb.messages.filter (fun m => m.room_id == 1)).length) ∧
      l.Pairwise (fun a b => a.id ≤ b.id) ∧
      (∀ m ∈ l, m ∈ exMsgDb.messages ∧ m.room_id = 1) ∧
      ∃ rest, (l ++ rest).Perm (exMsgDb.messages.filter (fun m => m.room_id == 1)) ∧
        ∀ x ∈ rest, ∀ y ∈ l, x.id ≤ y.id) :=
  ⟨by decide, C7_messages_ascending_capped exMsgDb 1 (by decide)⟩

/-! ## C8 — posting requires a verifying membership -/

/-- Claim C8: a well-formed post-message request whose (roomId, name, token)
triple does not verify against the membership ledger — a room never joined,
or a mismatched token — fails with the 401 unauthorized signal and leaves
the store completely unchanged (no message row, no activity update); when
the triple verifies, the message is appended to the message table and every
room row with the target id has its last-activity timestamp refreshed to the
post's timestamp. -/
theorem C8_post_requires_membership (db : DB) (body : PostBody) (now : Nat)
    (hr : body.roomId ≠ 0)
    (hn : trimOr body.name ≠ "")
    (hm : trimOr body.message ≠ "")
    (hln : (trimOr body.name).length ≤ MAX_NAME)
    (hlm : (trimOr body.message).length ≤ MAX_MSG) :
    (verifies db body.roomId (trimOr body.name) (trimOr body.memberToken) = false →
      postMessage db body now = (.error (401, "join room first"), db)) ∧
    (verifies db body.roomId (trimOr body.name) (trimOr body.memberToken) = true →
      ∃ msg, (postMessage db body now).1 = .ok msg ∧
        (postMessage db body now).2.messages = db.messages ++ [msg] ∧
        msg.room_id = body.roomId ∧ msg.name = trimOr body.name ∧
        msg.message = trimOr body.message ∧ msg.created_at = now ∧
        (∀ r ∈ (postMessage db body now).2.rooms, r.id = body.roomId →
          r.last_active_at = now)) := by
  have hc1 : ¬ (((body.roomId == 0) || (trimOr body.name == "") ||
      (trimOr body.message == "")) = true) := by
    simp [hr, hn, hm]
  have hc2 : ¬ ((decide ((trimOr body.name).length > MAX_NAME) ||
      decide ((trimOr body.message).length > MAX_MSG)) = true) := by
    simp only [Bool.or_eq_true, decide_eq_true_eq, not_or, Nat.not_lt]
    exact ⟨hln, hlm⟩
  constructor
  · intro hver
    simp only [postMessage]
    rw [if_neg hc1, if_neg hc2,
      assertMember_of_verifies_false db _ _ _ now hver]
    rfl
  · intro hver
    simp only [postMessage]
    rw [if_neg hc1, if_neg hc2, assertMember_fst, hver]
    simp only [Bool.not_true, Bool.false_eq_true, if_false]
    refine ⟨_, rfl, ?_, rfl, rfl, rfl, rfl, ?_⟩
    · show (assertMember db body.roomId (trimOr body.name)
          (trimOr body.memberToken) now).2.messages ++ _ = _
      rw [assertMember_messages]
    · intro r hrm hid
      simp only [touchRoom, List.mem_map] at hrm
      rcases hrm with ⟨r0, _, heq⟩
      by_cases h0 : (r0.id == body.roomId) = true
      · rw [if_pos h0] at heq
        rw [← heq]
      · rw [if_neg h0] at heq
        rw [← heq] at hid
        exact absurd (beq_iff_eq.mpr hid) h0

/-- Concrete instance of C8: in `exDb`, posting as `bob` (never joined)
fails unauthorized with no state change; posting as `alice` with her valid
token appends the message and touches the room. -/
theorem C8_post_requires_membership_witness :
    (1 : Nat) ≠ 0 ∧
    trimOr (some "bob") ≠ "" ∧
    trimOr (some "hello") ≠ "" ∧
    (trimOr (some "bob")).length ≤ MAX_NAME ∧
    (trimOr (some "hello")).length ≤ MAX_MSG ∧
    ((verifies exDb 1 (trimOr (some "bob")) (trimOr (some "tok123")) = false →
      postMessage exDb ⟨1, some "bob", some "hello", some "tok123"⟩ 7 =
        (.error (401, "join room first"), exDb)) ∧
     (verifies exDb 1 (trimOr (some "bob")) (trimOr (some "tok123")) = true →
      ∃ msg, (postMessage exDb ⟨1, some "bob", some "hello", some "tok123"⟩ 7).1 = .ok msg ∧
        (postMessage exDb ⟨1, some "bob", some "hello", some "tok123"⟩ 7).2.messages =
          exDb.messages ++ [msg] ∧
        msg.room_id = 1 ∧ msg.name = trimOr (some "bob") ∧
        msg.message = trimOr (some "hello") ∧ msg.created_at = 7 ∧
        (∀ r ∈ (postMessage exDb ⟨1, some "bob", some "hello", some "tok123"⟩ 7).2.rooms,
          r.id = 1 → r.last_active_at = 7))) :=
  ⟨by decide, by decide, by decide, by decide, by decide,
   C8_post_requires_membership exDb ⟨1, some "bob", some "hello", some "tok123"⟩ 7
     (by decide) (by decide) (by decide) (by decide) (by decide)⟩

/-! ## C9 — privacy flag / password hash correspondence -/

theorem DBInv_touchRoom (db : DB) (roomId now : Nat) (hinv : DBInv db) :
    DBInv (touchRoom db roomId now) := by
  intro r hr
  simp only [touchRoom, List.mem_map] at hr
  rcases hr with ⟨r0, hr0, heq⟩
  have hwf := hinv r0 hr0
  by_cases h0 : (r0.id == roomId) = true
  · rw [if_pos h0] at heq
    rw [← heq]
    exact hwf
  · rw [if_neg h0] at heq
    rw [← heq]
    exact hwf

theorem DBInv_joinMember (db : DB) (roomId : Nat) (n t : String) (now : Nat)
    (hinv : DBInv db) : DBInv ((joinMember db roomId n t now).2) := by
  intro r hr
  rw [joinMember_rooms] at hr
  exact hinv r hr

theorem DBInv_assertMember (db : DB) (roomId : Nat) (n t : String) (now : Nat)
    (hinv : DBInv db) : DBInv ((assertMember db roomId n t now).2) := by
  intro r hr
  rw [assertMember_rooms] at hr
  exact hinv r hr

/-- Claim C9: every operation of the worker preserves the invariant that a
private room carries a password hash and a public room does not: the seeded
Lobby, expiration cleanup, room creation, join, invite rotation, password
rotation and message posting all maintain the correspondence, so it holds in
every reachable state. -/
theorem C9_privacy_hash_invariant
    (h : String → String) (db : DB) (now : Nat)
    (cbody : CreateBody) (jbody : JoinBody) (ibody : RotateInviteBody)
    (pbody : RotatePasswordBody) (mbody : PostBody)
    (roomId : Nat) (inviteCode token newInvite : String)
    (hinv : DBInv db) :
    DBInv (ensureLobby db now) ∧
    DBInv (cleanupExpired db now) ∧
    DBInv ((createRoom h db cbody inviteCode token now).2) ∧
    DBInv ((joinRoom h db jbody token now).2) ∧
    DBInv ((regenerateInvite db roomId ibody newInvite now).2) ∧
    DBInv ((regeneratePassword h db roomId pbody now).2) ∧
    DBInv ((postMessage db mbody now).2) := by
  refine ⟨?_, ?_, ?_, ?_, ?_, ?_, ?_⟩
  · simp only [ensureLobby]
    split
    · exact hinv
    · intro r hr
      simp only [List.mem_append, List.mem_singleton] at hr
      rcases hr with hr | hr
      · exact hinv r hr
      · rw [hr]
        rfl
  · intro r hr
    simp only [cleanupExpired] at hr
    exact hinv r (List.mem_filter.mp hr).1
  · simp only [createRoom]
    split
    · exact hinv
    split
    · exact hinv
    split
    · exact hinv
    split
    · exact hinv
    refine DBInv_joinMember _ _ _ _ _ ?_
    intro r hr
    simp only [List.mem_append, List.mem_singleton] at hr
    rcases hr with hr | hr
    · exact hinv r hr
    · rw [hr]
      cases hp : cbody.isPrivate <;> simp [roomWf, hp]
  · simp only [joinRoom]
    split
    · exact hinv
    split
    · exact hinv
    split
    · exact hinv
    split
    · exact hinv
    · exact DBInv_touchRoom _ _ _ (DBInv_joinMember _ _ _ _ _ hinv)
  · simp only [regenerateInvite]
    split
    · exact hinv
    split
    · exact hinv
    split
    · exact DBInv_assertMember _ _ _ _ _ hinv
    · intro r hr
      simp only [List.mem_map] at hr
      rcases hr with ⟨r0, hr0, heq⟩
      have hwf := DBInv_assertMember db roomId
        (trimOr ibody.memberName) (trimOr ibody.memberToken) now hinv r0 hr0
      by_cases h0 : (r0.id == roomId) = true
      · rw [if_pos h0] at heq
        rw [← heq]
        exact hwf
      · rw [if_neg h0] at heq
        rw [← heq]
        exact hwf
  · simp only [regeneratePassword]
    split
    · exact hinv
    split
    · exact hinv
    split
    · exact hinv
    split
    · exact DBInv_assertMember _ _ _ _ _ hinv
    · intro r hr
      simp only [List.mem_map] at hr
      rcases hr with ⟨r0, hr0, heq⟩
      have hwf := DBInv_assertMember db roomId
        (trimOr pbody.memberName) (trimOr pbody.memberToken) now hinv r0 hr0
      by_cases h0 : (r0.id == roomId) = true
      · rw [if_pos h0] at heq
        rw [← heq]
        rfl
      · rw [if_neg h0] at heq
        rw [← heq]
        exact hwf
  · simp only [postMessage]
    split
    · exact hinv
    split
    · exact hinv
    split
    · exact DBInv_assertMember _ _ _ _ _ hinv
    · refine DBInv_touchRoom _ _ _ ?_
      intro r hr
      exact DBInv_assertMember db mbody.roomId (trimOr mbody.name)
        (trimOr mbody.memberToken) now hinv r hr

/-- Concrete instance of C9: all seven operations applied to `exDb`. -/
theorem C9_privacy_hash_invariant_witness :
    DBInv exDb ∧
    (DBInv (ensureLobby exDb 3) ∧
     DBInv (cleanupExpired exDb 3) ∧
     DBInv ((createRoom id exDb ⟨some "X", some "y", false, none⟩ "INVITE70" "tokQ" 3).2) ∧
     DBInv ((joinRoom id exDb ⟨some "Team", none, some "bob"⟩ "tokQ" 3).2) ∧
     DBInv ((regenerateInvite exDb 1 ⟨some "alice", some "tok123"⟩ "NEWCODE9" 3).2) ∧
     DBInv ((regeneratePassword id exDb 1 ⟨some "alice", some "tok123", some "abcd"⟩ 3).2) ∧
     DBInv ((postMessage exDb ⟨1, some "alice", some "hi", some "tok123"⟩ 3).2)) :=
  ⟨by unfold DBInv roomWf; decide,
   C9_privacy_hash_invariant id exDb 3 ⟨some "X", some "y", false, none⟩
     ⟨some "Team", none, some "bob"⟩ ⟨some "alice", some "tok123"⟩
     ⟨some "alice", some "tok123", some "abcd"⟩
     ⟨1, some "alice", some "hi", some "tok123"⟩ 1 "INVITE70" "tokQ" "NEWCODE9"
     (by unfold DBInv roomWf; decide)⟩

/-! ## C10 — passwords are trimmed before hashing on create and join -/

/-- Claim C10: supplied passwords are trimmed of leading and trailing
whitespace before hashing on both room creation and room join.  A successful
private create with raw password `p` stores the hash of `jsTrim p`; a join
on a room whose stored hash is that of `jsTrim p'` succeeds for any supplied
raw password `q` with `jsTrim q = jsTrim p'` — in particular for every
password differing from the creation password only by leading or trailing
whitespace, since the two hash identically after trimming. -/
theorem C10_password_trimming
    (h : String → String) (db jdb : DB) (now now2 : Nat)
    (cbody : CreateBody) (inviteCode token : String) (res : CreateResult) (p : String)
    (jbody : JoinBody) (jtoken : String) (room : RoomRow) (p' q : String)
    (hp : cbody.isPrivate = true) (hbp : cbody.password = some p)
    (hok : (createRoom h db cbody inviteCode token now).1 = .ok res)
    (hid : trimOr jbody.identifier ≠ "")
    (hnm : trimOr jbody.memberName ≠ "")
    (hlen : (trimOr jbody.memberName).length ≤ MAX_NAME)
    (hfind : findRoom jdb (trimOr jbody.identifier) = some room)
    (hhash : room.password_hash = some (h (jsTrim p')))
    (hbq : jbody.password = some q) (htrim : jsTrim q = jsTrim p') :
    (∃ r ∈ (createRoom h db cbody inviteCode token now).2.rooms,
       r.id = res.roomId ∧ r.is_private = true ∧
       r.password_hash = some (h (jsTrim p))) ∧
    (joinRoom h jdb jbody jtoken now2).1 =
      .ok ⟨room.id, room.name, room.invite_code, room.owner_name,
           room.is_private, trimOr jbody.memberName, jtoken,
           room.owner_name == trimOr jbody.memberName⟩ := by
  constructor
  · simp only [createRoom] at hok ⊢
    split at hok
    · simp at hok
    rename_i hc1
    split at hok
    · simp at hok
    rename_i hc2
    split at hok
    · simp at hok
    rename_i hc3
    split at hok
    · simp at hok
    rename_i hc4
    rw [joinMember_fst] at hok
    have hres : CreateResult.mk db.nextRoomId (trimOr cbody.name) inviteCode
        (trimOr cbody.ownerName) token = res := by simpa using hok
    subst hres
    rw [if_neg hc1, if_neg hc2, if_neg hc3, if_neg hc4]
    refine ⟨{ id := db.nextRoomId, name := trimOr cbody.name,
              is_private := cbody.isPrivate,
              password_hash :=
                if cbody.isPrivate = true then some (h (trimOr cbody.password)) else none,
              invite_code := inviteCode, owner_name := trimOr cbody.ownerName,
              created_at := now, last_active_at := now }, ?_, rfl, hp, ?_⟩
    · rw [joinMember_rooms]
      exact List.mem_append_right _ (List.mem_singleton_self _)
    · rw [hp, if_pos rfl, hbp]
      rfl
  · simp only [joinRoom, hfind]
    rw [if_neg (by simp [hid, hnm]), if_neg (Nat.not_lt.mpr hlen), hhash, hbq,
      if_neg (by
        simp only [trimOr, htrim]
        simp)]
    simp [joinMember_fst]

/-- Concrete instance of C10: the private room `Secret` is created with the
raw password `" abcd "`; joining it with the raw password `"abcd "` — equal
to the creation password up to edge whitespace only — is accepted. -/
theorem C10_password_trimming_witness :
    ((⟨some "Secret", some "alice", true, some " abcd "⟩ : CreateBody).isPrivate = true) ∧
    ((⟨some "Secret", some "alice", true, some " abcd "⟩ : CreateBody).password = some " abcd ") ∧
    (createRoom id emptyDB ⟨some "Secret", some "alice", true, some " abcd "⟩
        "INVITE01" "tokA" 0).1 = .ok ⟨1, "Secret", "INVITE01", "alice", "tokA"⟩ ∧
    trimOr (some "Secret") ≠ "" ∧
    trimOr (some "bob") ≠ "" ∧
    (trimOr (some "bob")).length ≤ MAX_NAME ∧
    findRoom (createRoom id emptyDB ⟨some "Secret", some "alice", true, some " abcd "⟩
        "INVITE01" "tokA" 0).2 (trimOr (some "Secret")) =
      some ⟨1, "Secret", true, some "abcd", "INVITE01", "alice", 0, 0⟩ ∧
    ((⟨1, "Secret", true, some "abcd", "INVITE01", "alice", 0, 0⟩ : RoomRow).password_hash =
      some (id (jsTrim " abcd "))) ∧
    ((⟨some "Secret", some "abcd ", some "bob"⟩ : JoinBody).password = some "abcd ") ∧
    jsTrim "abcd " = jsTrim " abcd " ∧
    ((∃ r ∈ (createRoom id emptyDB ⟨some "Secret", some "alice", true, some " abcd "⟩
         "INVITE01" "tokA" 0).2.rooms,
       r.id = (⟨1, "Secret", "INVITE01", "alice", "tokA"⟩ : CreateResult).roomId ∧
       r.is_private = true ∧ r.password_hash = some (id (jsTrim " abcd "))) ∧
     (joinRoom id (createRoom id emptyDB ⟨some "Secret", some "alice", true, some " abcd "⟩
         "INVITE01" "tokA" 0).2 ⟨some "Secret", some "abcd ", some "bob"⟩ "tokB" 1).1 =
       .ok ⟨1, "Secret", "INVITE01", "alice", true, trimOr (some "bob"), "tokB",
            ("alice" == trimOr (some "bob"))⟩) :=
  ⟨by decide, by decide, by decide, by decide, by decide, by decide, by decide,
   by decide, by decide, by decide,
   C10_password_trimming id emptyDB
     (createRoom id emptyDB ⟨some "Secret", some "alice", true, some " abcd "⟩
       "INVITE01" "tokA" 0).2 0 1
     ⟨some "Secret", some "alice", true, some " abcd "⟩ "INVITE01" "tokA"
     ⟨1, "Secret", "INVITE01", "alice", "tokA"⟩ " abcd "
     ⟨some "Secret", some "abcd ", some "bob"⟩ "tokB"
     ⟨1, "Secret", true, some "abcd", "INVITE01", "alice", 0, 0⟩ " abcd " "abcd "
     (by decide) (by decide) (by decide) (by decide) (by decide) (by decide)
     (by decide) (by decide) (by decide) (by decide)⟩
